import Mathlib

/-!
Shallow embedding of `src/lib/app.js` (cyphernodeconf provisioning state
machine): the password-gated configuration-archive lifecycle, the
regeneration gating for API keys and the TLS certificate, and the
file-writing phase.  JavaScript `undefined` is modelled by `Option`,
JS truthiness by explicit helpers, `process.exit` by a terminal outcome,
and filesystem writes by an explicit event log.  External collaborators
whose code is not part of `src/` (the archive layer, the certificate
generator, the htpasswd hash, the prompt engine, the contributor modules)
enter as parameters: their results are inputs of the embedded functions.
Presentation-only output (splash screen, colors, the green `create` lines)
is omitted; the red error messages that the claims talk about are kept as
an explicit log.
-/

namespace Cyphernodeconf

/-- JS `v || dflt` for an optional string: `undefined` and `""` are falsy. -/
def jsOr (v : Option String) (dflt : String) : String :=
  match v with
  | none => dflt
  | some s => if s.isEmpty then dflt else s

/-- JS truthiness of an optional string field (`undefined` and `""` are falsy). -/
def truthyStr : Option String → Bool
  | none => false
  | some s => !s.isEmpty

/-- JS truthiness of an optional boolean field (`undefined` is falsy). -/
def truthyOptBool : Option Bool → Bool
  | none => false
  | some b => b

/-- JS `String.prototype.trim`: drop whitespace from both ends. -/
def jsTrim (s : String) : String :=
  String.mk (((s.data.dropWhile Char.isWhitespace).reverse.dropWhile Char.isWhitespace).reverse)

/-- `App.trimFilter`: `(input+"").trim()`. -/
def trimFilter (input : String) : String :=
  jsTrim input

/-- The fixed key hierarchy `keyIds` of app.js (identifier, group list),
in declaration order. -/
def keyIds : List (String × List String) :=
  [("000", ["stats"]),
   ("001", ["stats", "watcher"]),
   ("002", ["stats", "watcher", "spender"]),
   ("003", ["stats", "watcher", "spender", "admin"])]

/-- Modelled from the spec: the `ApiKey` class lives in `apikey.js`, which is
not under `src/`.  Per the spec a KeyRecord holds the identifier, its group
list and a freshly generated high-entropy secret. -/
structure ApiKey where
  id : String
  groups : List String
  secret : String
  deriving DecidableEq, Repr

/-- Modelled from the spec: the persisted config-entry projection of a
KeyRecord (`apikey.getConfigEntry()` of the missing `apikey.js`). -/
def ApiKey.getConfigEntry (k : ApiKey) : String :=
  k.id ++ ":" ++ k.secret ++ ":" ++ String.intercalate "," k.groups

/-- Modelled from the spec: the distributable client-information projection
of a KeyRecord — secret, id and groups in a transmissible form
(`apikey.getClientInformation()` of the missing `apikey.js`). -/
def ApiKey.getClientInformation (k : ApiKey) : String :=
  k.secret ++ ":" ++ k.id ++ ":" ++ String.intercalate "," k.groups

/-- The stored `gatekeeper_keys` object: the two projection lists. -/
structure KeyStore where
  configEntries : List String
  clientInformation : List String
  deriving DecidableEq, Repr

/-- The configuration document `config.data`, restricted to the fields the
provisioning state machine reads or writes.  Absent JS properties are `none`. -/
structure Document where
  gatekeeper_recreatekeys : Option Bool := none
  gatekeeper_keys : Option KeyStore := none
  gatekeeper_recreatecert : Option Bool := none
  gatekeeper_sslkey : Option String := none
  gatekeeper_sslcert : Option String := none
  gatekeeper_clientkeyspassword : Option String := none
  gatekeeper_cns : Option String := none
  adminhash : Option String := none
  enablehelp : Option Bool := none
  gatekeeper_datapath : Option String := none
  gatekeeper_datapath_custom : Option String := none
  traefik_datapath : Option String := none
  traefik_datapath_custom : Option String := none
  proxy_datapath : Option String := none
  proxy_datapath_custom : Option String := none
  bitcoin_datapath : Option String := none
  bitcoin_datapath_custom : Option String := none
  lightning_datapath : Option String := none
  lightning_datapath_custom : Option String := none
  otsclient_datapath : Option String := none
  otsclient_datapath_custom : Option String := none
  deriving DecidableEq, Repr

/-- The fresh empty document of a first run (`new Config()` with empty data). -/
def emptyDocument : Document := {}

/-- `App.createRandomKey(id, groups)`: returns `undefined` when `id` or
`groups` is falsy or the group list is empty; otherwise builds an ApiKey
whose secret is freshly generated (`apikey.randomiseKey()`, modelled as
drawing the supplied fresh secret). -/
def createRandomKey (freshSecret : String) (id : String) (groups : List String) : Option ApiKey :=
  if id.isEmpty || groups.isEmpty then none
  else some { id := id, groups := groups, secret := freshSecret }

/-- The `for keyId in keyIds` loop body of `App.processProps`: build one
KeyRecord per hierarchy entry, drawing the i-th fresh secret for the i-th
entry; a `undefined` record would make the subsequent projection call throw,
which is modelled as `none`. -/
def keyBatchAux (freshSecret : Nat → String) : Nat → List (String × List String) → Option (List ApiKey)
  | _, [] => some []
  | i, (id, groups) :: rest => do
    let k ← createRandomKey (freshSecret i) id groups
    let ks ← keyBatchAux freshSecret (i + 1) rest
    pure (k :: ks)

/-- One atomic regeneration batch over the whole fixed hierarchy. -/
def regenerateAll (freshSecret : Nat → String) : Option (List ApiKey) :=
  keyBatchAux freshSecret 0 keyIds

/-- The key-regeneration condition of `App.processProps`:
`config.data.gatekeeper_recreatekeys || config.data.gatekeeper_keys.configEntries.length === 0`.
JS short-circuits, so a truthy recreate flag never reads `gatekeeper_keys`;
with the flag falsy and `gatekeeper_keys` undefined the member access throws
(`none`). -/
def keysTrigger (d : Document) : Option Bool :=
  if truthyOptBool d.gatekeeper_recreatekeys then some true
  else
    match d.gatekeeper_keys with
    | none => none
    | some ks => some (ks.configEntries.length == 0)

/-- The key half of `App.processProps`: when triggered, delete the recreate
flag, regenerate the whole batch and store both projections; otherwise leave
the document untouched.  `none` models an uncaught JS exception. -/
def processKeys (freshSecret : Nat → String) (d : Document) : Option Document :=
  match keysTrigger d with
  | none => none
  | some false => some d
  | some true =>
    let d1 : Document := { d with gatekeeper_recreatekeys := none }
    (regenerateAll freshSecret).map fun ks =>
      { d1 with
        gatekeeper_keys := some
          { configEntries := ks.map ApiKey.getConfigEntry,
            clientInformation := ks.map ApiKey.getClientInformation } }

/-- The result of a successful return of `cert.create` (the certificate
generator is external code): a completion code plus key/cert payload. -/
structure CertCreateOk where
  code : Int
  key : String
  cert : String
  deriving DecidableEq, Repr

/-- The certificate-regeneration condition of `App.processProps`:
`gatekeeper_recreatecert || !gatekeeper_sslcert || !gatekeeper_sslkey`. -/
def certTrigger (d : Document) : Bool :=
  truthyOptBool d.gatekeeper_recreatecert
    || !truthyStr d.gatekeeper_sslcert
    || !truthyStr d.gatekeeper_sslkey

/-- The failure message logged by both failure branches of the certificate
block. -/
def certFailMsg : String := "error! Gatekeeper cert was not created"

/-- The certificate half of `App.processProps`: when triggered, the recreate
flag is deleted first, then `cert.create` is awaited; on code 0 the key/cert
fields are overwritten, on a non-zero code or a thrown error the failure is
only logged (`Except.error` models the throw). -/
def processCert (certResult : Except Unit CertCreateOk) (d : Document) :
    Document × List String :=
  if certTrigger d then
    let d1 : Document := { d with gatekeeper_recreatecert := none }
    match certResult with
    | .ok res =>
      if res.code = 0 then
        ({ d1 with gatekeeper_sslkey := some res.key,
                   gatekeeper_sslcert := some res.cert }, [])
      else (d1, [certFailMsg])
    | .error _ => (d1, [certFailMsg])
  else (d, [])

/-- `App.processProps`: keys first, then the certificate block.  The
session-only assignment of `sessionData.cns` touches neither the document nor
the filesystem and is omitted. -/
def processProps (freshSecret : Nat → String) (certResult : Except Unit CertCreateOk)
    (d : Document) : Option (Document × List String) :=
  (processKeys freshSecret d).map (processCert certResult)

/-- A filesystem write performed by the run, in program order. -/
inductive WriteEvent where
  | writeConfigArchive (ok : Bool)
  | writeTemplate (p : String)
  | deleteKeyArchive
  | writeKeyEntry (entryName : String) (ok : Bool)
  | writeSentinel (content : String)
  deriving DecidableEq, Repr

/-- One step of the `pathProps` loop of `App.writeFiles`: a value that is
exactly the sentinel `"_custom"` is replaced by the paired custom value
(or the empty string when that is falsy). -/
def resolvePathProp (v custom : Option String) : Option String :=
  if v = some "_custom" then some (jsOr custom "") else v

/-- The `pathProps` loop of `App.writeFiles` over the six path-valued
properties. -/
def resolvePathProps (d : Document) : Document :=
  { d with
    gatekeeper_datapath := resolvePathProp d.gatekeeper_datapath d.gatekeeper_datapath_custom,
    traefik_datapath := resolvePathProp d.traefik_datapath d.traefik_datapath_custom,
    proxy_datapath := resolvePathProp d.proxy_datapath d.proxy_datapath_custom,
    bitcoin_datapath := resolvePathProp d.bitcoin_datapath d.bitcoin_datapath_custom,
    lightning_datapath := resolvePathProp d.lightning_datapath d.lightning_datapath_custom,
    otsclient_datapath := resolvePathProp d.otsclient_datapath d.otsclient_datapath_custom }

/-- The failure message logged when `config.serialize` reports failure. -/
def configWriteFailMsg : String := "error! Config archive was not written"

/-- The failure message logged when a client key archive entry write reports
failure. -/
def keyArchiveWriteFailMsg : String := "error! Client gatekeeper key archive was not written"

/-- `App.writeFiles`.  External results enter as parameters: `configOk` is the
return of `config.serialize`, `entryOk` the per-entry return of
`archive.writeEntry`, `templates` the contributor template paths rendered by
the loop over prompter modules.  `snapshot` is
`sessionData.gatekeeper_clientkeyspassword` (the pre-wizard snapshot, or
`none` when the wizard never ran), `keyArchiveExists` whether `client.7z`
exists on disk.  Returns the (path-resolved) document, the logged error
messages, and the ordered write events. -/
def writeFiles (snapshot : Option String) (keyArchiveExists : Bool)
    (configOk : Bool) (entryOk : String → Bool) (templates : List String)
    (d : Document) : Document × List String × List WriteEvent :=
  let configLog := if configOk then [] else [configWriteFailMsg]
  let configEv := [WriteEvent.writeConfigArchive configOk]
  let d1 := resolvePathProps d
  let templateEvs := templates.map WriteEvent.writeTemplate
  match d1.gatekeeper_keys with
  | none =>
    (d1, configLog, configEv ++ templateEvs ++ [WriteEvent.writeSentinel "EXIT_STATUS=0"])
  | some _ =>
    let deleteEvs :=
      if snapshot ≠ d1.gatekeeper_clientkeyspassword && keyArchiveExists then
        [WriteEvent.deleteKeyArchive]
      else []
    let ok1 := entryOk "keys.txt"
    let ok2 := entryOk "cacert.pem"
    let entryLog :=
      (if ok1 then [] else [keyArchiveWriteFailMsg])
        ++ (if ok2 then [] else [keyArchiveWriteFailMsg])
    (d1, configLog ++ entryLog,
      configEv ++ templateEvs ++ deleteEvs
        ++ [WriteEvent.writeKeyEntry "keys.txt" ok1,
            WriteEvent.writeKeyEntry "cacert.pem" ok2,
            WriteEvent.writeSentinel "EXIT_STATUS=0"])

/-- The version-related environment variables read by `App.start`. -/
structure VersionEnv where
  GATEKEEPER_VERSION : Option String := none
  PROXY_VERSION : Option String := none
  PROXYCRON_VERSION : Option String := none
  PYCOIN_VERSION : Option String := none
  OTSCLIENT_VERSION : Option String := none
  BITCOIN_VERSION : Option String := none
  LIGHTNING_VERSION : Option String := none
  SPARKWALLET_VERSION : Option String := none
  VERSION_OVERRIDE : Option String := none
  deriving DecidableEq, Repr

/-- The per-service version pins of `sessionData`. -/
structure Versions where
  gatekeeper_version : String
  proxy_version : String
  proxycron_version : String
  pycoin_version : String
  otsclient_version : String
  bitcoin_version : String
  lightning_version : String
  sparkwallet_version : String
  deriving DecidableEq, Repr

/-- The initial `sessionData` version pins: each env pin or its default
(`"latest"`, and `"standalone"` for sparkwallet). -/
def initialVersions (e : VersionEnv) : Versions :=
  { gatekeeper_version := jsOr e.GATEKEEPER_VERSION "latest",
    proxy_version := jsOr e.PROXY_VERSION "latest",
    proxycron_version := jsOr e.PROXYCRON_VERSION "latest",
    pycoin_version := jsOr e.PYCOIN_VERSION "latest",
    otsclient_version := jsOr e.OTSCLIENT_VERSION "latest",
    bitcoin_version := jsOr e.BITCOIN_VERSION "latest",
    lightning_version := jsOr e.LIGHTNING_VERSION "latest",
    sparkwallet_version := jsOr e.SPARKWALLET_VERSION "standalone" }

/-- The `VERSION_OVERRIDE` equals-`true` block of `App.start`: seven pins are
reassigned to `"latest"` and sparkwallet to `"standalone"`. -/
def sessionVersions (e : VersionEnv) : Versions :=
  let v := initialVersions e
  if e.VERSION_OVERRIDE = some "true" then
    { gatekeeper_version := "latest",
      proxy_version := "latest",
      proxycron_version := "latest",
      pycoin_version := "latest",
      otsclient_version := "latest",
      bitcoin_version := "latest",
      lightning_version := "latest",
      sparkwallet_version := "standalone" }
  else v

/-- One iteration of the new-password while loop: both (already trimmed)
entries must be non-empty and equal. -/
def pairAccepted (p : String × String) : Bool :=
  let t0 := trimFilter p.1
  let t1 := trimFilter p.2
  !t0.isEmpty && !t1.isEmpty && (t0 == t1)

/-- The new-password while loop of `App.setupConfigArchive`: prompt the full
pair again until accepted; both prompts carry `filter: trimFilter`, so the
compared and returned values are the trimmed inputs.  `inputs` is the stream
of raw entry pairs; `none` models an input stream that never satisfies the
loop condition (the process would keep prompting). -/
def newPasswordLoop : List (String × String) → Option String
  | [] => none
  | p :: rest =>
    if pairAccepted p then some (trimFilter p.1) else newPasswordLoop rest

/-- The existing-archive password prompt loop (`while(!r.password)`), with
`filter: trimFilter` applied to each entry. -/
def passwordLoop : List String → Option String
  | [] => none
  | s :: rest =>
    let t := trimFilter s
    if t.isEmpty then passwordLoop rest else some t

/-- An AJV validation error as read by `App.start`: its `keyword` and, when
`params` is present, `params.missingProperty`. -/
structure ValidateError where
  keyword : String
  params : Option (Option String)
  deriving DecidableEq, Repr

/-- The missing-property collection loop of `App.start`: keep
`error.params.missingProperty` for every error whose keyword is `required`
with truthy `params` and `params.missingProperty`. -/
def missingProps (errors : List ValidateError) : List String :=
  errors.foldl
    (fun acc e =>
      match e.params with
      | some (some p) =>
        if e.keyword == "required" && !p.isEmpty then acc ++ [p] else acc
      | _ => acc)
    []

/-- The `Config` object: its property data plus the `validateErrors` the
deserializer attached (`none` when the property is absent, as on a fresh
configuration). -/
structure Config where
  data : Document
  validateErrors : Option (List ValidateError)
  deriving DecidableEq, Repr

/-- Outcome of `config.deserialize` on the existing archive: the decrypted
config, or a thrown error (wrong password and corrupted archive both throw
from the same decryption step; `e` is the thrown error rendered as text). -/
inductive DeserializeOutcome where
  | ok (cfg : Config)
  | err (e : String)
  deriving DecidableEq, Repr

/-- Result of `App.setupConfigArchive`: proceed with a config and the
resolved configuration password, terminate via `process.exit`, or keep
prompting forever because the input stream is exhausted (`stuck`). -/
inductive SetupResult where
  | proceed (cfg : Config) (password : String)
  | exited (code : Nat)
  | stuck
  deriving DecidableEq, Repr

/-- The whole external world of one run: environment variables, prompt input
streams, and the results of the external collaborators. -/
structure World where
  versionEnv : VersionEnv
  noWizard : Bool
  configArchiveExists : Bool
  newPasswordInputs : List (String × String)
  CFG_PASSWORD : Option String
  passwordPromptInputs : List String
  deserialize : String → DeserializeOutcome
  htpasswd : String → String
  wizard : Document → Document
  freshSecret : Nat → String
  certResult : Except Unit CertCreateOk
  configSerializeOk : Bool
  entryWriteOk : String → Bool
  templates : List String
  keyArchiveExists : Bool

/-- `App.setupConfigArchive`.  No archive: run the new-password pair loop on
a fresh empty config.  Archive present: resolve the password (truthy
`CFG_PASSWORD` verbatim, else the prompt loop) and deserialize; a thrown
deserialize error is logged and answered by `process.exit()` — which, having
no argument, terminates with status 0.  On both surviving paths the admin
hash of the password in use is stored into the document. -/
def setupConfigArchive (w : World) : SetupResult × List String :=
  if !w.configArchiveExists then
    match newPasswordLoop w.newPasswordInputs with
    | none => (.stuck, [])
    | some pw =>
      (.proceed
        { data := { emptyDocument with adminhash := some (w.htpasswd pw) },
          validateErrors := none } pw, [])
  else
    let pw? :=
      match w.CFG_PASSWORD with
      | some p => if p.isEmpty then passwordLoop w.passwordPromptInputs else some p
      | none => passwordLoop w.passwordPromptInputs
    match pw? with
    | none => (.stuck, [])
    | some pw =>
      match w.deserialize pw with
      | .err e => (.exited 0, [e])
      | .ok cfg =>
        (.proceed { cfg with data := { cfg.data with adminhash := some (w.htpasswd pw) } } pw, [])

/-- The instruction printed before the unattended-mode fatal exit. -/
def unattendedFailMsg : String :=
  "Unable to migrate client.7z non-interactively. Rerun without the -r option"

/-- Final outcome of one run of `App.start`. -/
inductive RunOutcome where
  | completed (d : Document)
  | exited (code : Nat)
  | aborted
  deriving DecidableEq, Repr

/-- `App.start`: version pins, `setupConfigArchive`, the missing-property
schema check, the unattended gate (`process.exit(1)`), the pre-wizard
snapshot of the client-key credential and the wizard (merged abstractly by
`w.wizard`), then `processProps` and `writeFiles`.  Returns the outcome, the
logged error messages and the ordered filesystem writes.  `aborted` models an
uncaught JS exception or an exhausted prompt stream. -/
def run (w : World) : RunOutcome × List String × List WriteEvent :=
  match setupConfigArchive w with
  | (.stuck, logs) => (.aborted, logs, [])
  | (.exited c, logs) => (.exited c, logs, [])
  | (.proceed cfg _pw, logs) =>
    let missing := missingProps (cfg.validateErrors.getD [])
    if w.noWizard && !missing.isEmpty then
      (.exited 1, logs ++ [unattendedFailMsg], [])
    else
      let snapshot := if !w.noWizard then cfg.data.gatekeeper_clientkeyspassword else none
      let d1 := if !w.noWizard then w.wizard cfg.data else cfg.data
      match processProps w.freshSecret w.certResult d1 with
      | none => (.aborted, logs, [])
      | some (d2, certLogs) =>
        let (d3, writeLogs, evs) :=
          writeFiles snapshot w.keyArchiveExists w.configSerializeOk
            w.entryWriteOk w.templates d2
        (.completed d3, logs ++ certLogs ++ writeLogs, evs)


/-! ## Helper lemmas -/

/-- The path-resolution step never touches the client-key credential. -/
theorem resolvePathProps_clientkeyspassword (d : Document) :
    (resolvePathProps d).gatekeeper_clientkeyspassword = d.gatekeeper_clientkeyspassword := rfl

/-- The path-resolution step never touches the stored key records. -/
theorem resolvePathProps_keys (d : Document) :
    (resolvePathProps d).gatekeeper_keys = d.gatekeeper_keys := rfl

/-- The file-writing phase always emits the status-0 sentinel write as its
last event. -/
theorem writeSentinel_mem (snapshot : Option String) (keyArchiveExists configOk : Bool)
    (entryOk : String → Bool) (templates : List String) (d : Document) :
    WriteEvent.writeSentinel "EXIT_STATUS=0" ∈
      (writeFiles snapshot keyArchiveExists configOk entryOk templates d).2.2 := by
  unfold writeFiles
  cases h : (resolvePathProps d).gatekeeper_keys <;> simp [h]

/-! ## C9 — version override -/

/-- A version environment with the override flag and an explicit sparkwallet
pin. -/
def overrideEnv : VersionEnv :=
  { SPARKWALLET_VERSION := some "v0.2.15"
    VERSION_OVERRIDE := some "true" }

/-- C9 counterexample: with the version-override flag set to true and a
sparkwallet version pin supplied, the sparkwallet pin in the session context
is forced to `standalone`, not to the `latest` tag — refuting the claim that
every per-service version pin is forced to `latest`. -/
theorem version_override_not_latest_for_sparkwallet :
    (sessionVersions overrideEnv).sparkwallet_version = "standalone" ∧
    (sessionVersions overrideEnv).sparkwallet_version ≠ "latest" := by
  constructor <;> decide

/-- C9 (amended): when the version-override environment flag equals `true`,
the seven per-service version pins other than sparkwallet are forced to the
floating `latest` tag and the sparkwallet pin is forced to `standalone`,
regardless of any per-service version environment variables supplied. -/
theorem version_override_forces_versions (e : VersionEnv)
    (h : e.VERSION_OVERRIDE = some "true") :
    (sessionVersions e).gatekeeper_version = "latest" ∧
    (sessionVersions e).proxy_version = "latest" ∧
    (sessionVersions e).proxycron_version = "latest" ∧
    (sessionVersions e).pycoin_version = "latest" ∧
    (sessionVersions e).otsclient_version = "latest" ∧
    (sessionVersions e).bitcoin_version = "latest" ∧
    (sessionVersions e).lightning_version = "latest" ∧
    (sessionVersions e).sparkwallet_version = "standalone" := by
  simp [sessionVersions, h]

/-- C9 witness: the amended statement evaluated on a concrete environment. -/
theorem version_override_forces_versions_witness :
    overrideEnv.VERSION_OVERRIDE = some "true" ∧
    ((sessionVersions overrideEnv).gatekeeper_version = "latest" ∧
     (sessionVersions overrideEnv).proxy_version = "latest" ∧
     (sessionVersions overrideEnv).proxycron_version = "latest" ∧
     (sessionVersions overrideEnv).pycoin_version = "latest" ∧
     (sessionVersions overrideEnv).otsclient_version = "latest" ∧
     (sessionVersions overrideEnv).bitcoin_version = "latest" ∧
     (sessionVersions overrideEnv).lightning_version = "latest" ∧
     (sessionVersions overrideEnv).sparkwallet_version = "standalone") :=
  ⟨rfl, version_override_forces_versions overrideEnv rfl⟩

/-! ## C10 — sentinel despite write failures -/

/-- C10: whenever the file-writing phase runs to its end, the exit-status
sentinel recording status 0 is written, even when the configuration-archive
write or either client-key-archive entry write failed; the config-archive
write failure is reported exactly when `config.serialize` returned failure,
and never prevents the sentinel. -/
theorem write_failures_do_not_block_sentinel (snapshot : Option String)
    (keyArchiveExists configOk : Bool) (entryOk : String → Bool)
    (templates : List String) (d : Document) :
    WriteEvent.writeSentinel "EXIT_STATUS=0" ∈
      (writeFiles snapshot keyArchiveExists configOk entryOk templates d).2.2 ∧
    (configWriteFailMsg ∈
        (writeFiles snapshot keyArchiveExists configOk entryOk templates d).2.1
      ↔ configOk = false) := by
  refine ⟨writeSentinel_mem snapshot keyArchiveExists configOk entryOk templates d, ?_⟩
  unfold writeFiles
  cases h : (resolvePathProps d).gatekeeper_keys <;>
    cases configOk <;>
    cases h1 : entryOk "keys.txt" <;>
    cases h2 : entryOk "cacert.pem" <;>
    simp [h, h1, h2, configWriteFailMsg, keyArchiveWriteFailMsg]

/-! ## C5 — recreate-cert flag is one-shot on attempt -/

/-- C5: whenever certificate regeneration is triggered, the recreate-cert
flag is removed from the document before the generation attempt starts, so
after the attempt the flag is absent whether generation succeeded, returned a
non-zero code, or threw. -/
theorem recreatecert_flag_consumed_on_attempt
    (certResult : Except Unit CertCreateOk) (d : Document)
    (h : certTrigger d = true) :
    (processCert certResult d).1.gatekeeper_recreatecert = none := by
  unfold processCert
  simp only [h, if_true]
  cases certResult with
  | ok res => by_cases hc : res.code = 0 <;> simp [hc]
  | error e => simp

/-- A document whose recreate-cert flag is set. -/
def certFlagDoc : Document := { gatekeeper_recreatecert := some true }

/-- C5 witness: a triggered attempt that throws still leaves the flag
absent. -/
theorem recreatecert_flag_consumed_on_attempt_witness :
    certTrigger certFlagDoc = true ∧
    (processCert (Except.error ()) certFlagDoc).1.gatekeeper_recreatecert = none :=
  ⟨rfl, recreatecert_flag_consumed_on_attempt (Except.error ()) certFlagDoc rfl⟩

/-! ## C6 — certificate generation failure is non-fatal -/

/-- `cert.create` failed: a non-zero completion code or a thrown error. -/
def certFailed : Except Unit CertCreateOk → Prop
  | .ok res => res.code ≠ 0
  | .error _ => True

instance (r : Except Unit CertCreateOk) : Decidable (certFailed r) := by
  cases r with
  | ok res => exact inferInstanceAs (Decidable (res.code ≠ 0))
  | error e => exact inferInstanceAs (Decidable True)

/-- C6: when certificate generation returns a non-zero completion code or
throws, the stored TLS key and certificate fields keep exactly their prior
values, the failure is only logged, and the run continues: the file-writing
phase on the resulting document still reaches the sentinel write. -/
theorem cert_failure_preserves_prior_material
    (r : Except Unit CertCreateOk) (d : Document)
    (snapshot : Option String) (keyArchiveExists configOk : Bool)
    (entryOk : String → Bool) (templates : List String)
    (hTrig : certTrigger d = true) (hFail : certFailed r) :
    (processCert r d).1.gatekeeper_sslkey = d.gatekeeper_sslkey ∧
    (processCert r d).1.gatekeeper_sslcert = d.gatekeeper_sslcert ∧
    (processCert r d).2 = [certFailMsg] ∧
    WriteEvent.writeSentinel "EXIT_STATUS=0" ∈
      (writeFiles snapshot keyArchiveExists configOk entryOk templates
        (processCert r d).1).2.2 := by
  refine ⟨?_, ?_, ?_,
    writeSentinel_mem snapshot keyArchiveExists configOk entryOk templates _⟩
  all_goals
    unfold processCert
    simp only [hTrig, if_true]
    cases r with
    | ok res =>
      have hc : res.code ≠ 0 := hFail
      simp [hc]
    | error e => simp

/-- A document with prior certificate material and the recreate flag set. -/
def certFailDoc : Document :=
  { gatekeeper_recreatecert := some true
    gatekeeper_sslkey := some "oldkey"
    gatekeeper_sslcert := some "oldcert" }

/-- A generation result with a non-zero completion code. -/
def certFailRes : Except Unit CertCreateOk := Except.ok ⟨1, "newkey", "newcert"⟩

/-- C6 witness: a non-zero completion code on a triggered attempt. -/
theorem cert_failure_preserves_prior_material_witness :
    certTrigger certFailDoc = true ∧ certFailed certFailRes ∧
    ((processCert certFailRes certFailDoc).1.gatekeeper_sslkey = certFailDoc.gatekeeper_sslkey ∧
     (processCert certFailRes certFailDoc).1.gatekeeper_sslcert = certFailDoc.gatekeeper_sslcert ∧
     (processCert certFailRes certFailDoc).2 = [certFailMsg] ∧
     WriteEvent.writeSentinel "EXIT_STATUS=0" ∈
       (writeFiles none false false (fun _ => false) []
         (processCert certFailRes certFailDoc).1).2.2) :=
  ⟨rfl, by decide,
    cert_failure_preserves_prior_material certFailRes certFailDoc none false false
      (fun _ => false) [] rfl (by decide)⟩

/-! ## C4 — key regeneration gating -/

/-- C4: key regeneration is triggered exactly when the recreate-keys flag is
truthy or the stored key-entries collection is empty; for every document with
the flag unset and a non-empty key-entries collection, the key phase leaves
the whole document — in particular the stored key records — unchanged. -/
theorem keys_regeneration_gating (f : Nat → String) (d : Document) (ks : KeyStore)
    (hks : d.gatekeeper_keys = some ks) :
    (keysTrigger d = some true ↔
      (truthyOptBool d.gatekeeper_recreatekeys = true ∨ ks.configEntries = [])) ∧
    (truthyOptBool d.gatekeeper_recreatekeys = false → ks.configEntries ≠ [] →
      processKeys f d = some d) := by
  constructor
  · cases hf : truthyOptBool d.gatekeeper_recreatekeys <;>
      simp [keysTrigger, hf, hks, beq_iff_eq, List.length_eq_zero]
  · intro hf hne
    obtain ⟨a, l, hc⟩ : ∃ a l, ks.configEntries = a :: l := by
      cases hcc : ks.configEntries with
      | nil => exact absurd hcc hne
      | cons a l => exact ⟨a, l, rfl⟩
    simp [processKeys, keysTrigger, hf, hks, hc]

/-- A document with the recreate-keys flag absent and one stored key entry. -/
def keysKeptDoc : Document :=
  { gatekeeper_keys := some ⟨["entry0"], ["client0"]⟩ }

/-- C4 witness: on a document with a non-empty key-entries collection and no
flag, the trigger characterization holds and the records are unchanged. -/
theorem keys_regeneration_gating_witness :
    keysKeptDoc.gatekeeper_keys = some (⟨["entry0"], ["client0"]⟩ : KeyStore) ∧
    ((keysTrigger keysKeptDoc = some true ↔
        (truthyOptBool keysKeptDoc.gatekeeper_recreatekeys = true ∨
          (⟨["entry0"], ["client0"]⟩ : KeyStore).configEntries = [])) ∧
     (truthyOptBool keysKeptDoc.gatekeeper_recreatekeys = false →
        (⟨["entry0"], ["client0"]⟩ : KeyStore).configEntries ≠ [] →
        processKeys (fun n => toString n) keysKeptDoc = some keysKeptDoc)) :=
  ⟨rfl, keys_regeneration_gating (fun n => toString n) keysKeptDoc
    ⟨["entry0"], ["client0"]⟩ rfl⟩

/-! ## C1 — key hierarchy batch -/

/-- Strict growth between two successive KeyRecords: every group of the lower
tier is a group of the higher tier, and the higher tier has a group the lower
lacks. -/
def strictGroupGrowth (a b : ApiKey) : Prop :=
  (∀ g ∈ a.groups, g ∈ b.groups) ∧ ∃ g ∈ b.groups, g ∉ a.groups

/-- C1: every generated key batch covers exactly the four fixed identifiers
in hierarchy order; the group list of each successive identifier strictly
grows over the previous one; and every record carries a freshly generated
secret — the i-th draw of the supply, all four pairwise distinct whenever the
supply never repeats. -/
theorem key_batch_hierarchy (f : Nat → String) (hinj : Function.Injective f) :
    ∃ ks : List ApiKey, regenerateAll f = some ks ∧
      ks.map ApiKey.id = ["000", "001", "002", "003"] ∧
      ks.map ApiKey.secret = [f 0, f 1, f 2, f 3] ∧
      (ks.map ApiKey.secret).Nodup ∧
      ks.Chain' strictGroupGrowth := by
  have hne : ∀ i j : Nat, i ≠ j → f i ≠ f j := fun i j hij h => hij (hinj h)
  have h01 := hne 0 1 (by decide)
  have h02 := hne 0 2 (by decide)
  have h03 := hne 0 3 (by decide)
  have h12 := hne 1 2 (by decide)
  have h13 := hne 1 3 (by decide)
  have h23 := hne 2 3 (by decide)
  refine ⟨[⟨"000", ["stats"], f 0⟩, ⟨"001", ["stats", "watcher"], f 1⟩,
           ⟨"002", ["stats", "watcher", "spender"], f 2⟩,
           ⟨"003", ["stats", "watcher", "spender", "admin"], f 3⟩],
          rfl, rfl, rfl, ?_, ?_⟩
  · simp [List.nodup_cons, h01, h02, h03, h12, h13, h23]
  · simp [List.chain'_cons, strictGroupGrowth]

/-- The injective fresh-secret supply used by the C1 witness. -/
def witnessSecret (n : Nat) : String := String.mk (List.replicate n 'a')

/-- The witness supply never repeats a secret. -/
theorem witnessSecret_injective : Function.Injective witnessSecret := by
  intro i j h
  have h2 : List.replicate i 'a' = List.replicate j 'a' := congrArg String.data h
  have h3 := congrArg List.length h2
  simpa using h3

/-- C1 witness: the batch properties evaluated on a concrete never-repeating
supply. -/
theorem key_batch_hierarchy_witness :
    ∃ ks : List ApiKey, regenerateAll witnessSecret = some ks ∧
      ks.map ApiKey.id = ["000", "001", "002", "003"] ∧
      ks.map ApiKey.secret =
        [witnessSecret 0, witnessSecret 1, witnessSecret 2, witnessSecret 3] ∧
      (ks.map ApiKey.secret).Nodup ∧
      ks.Chain' strictGroupGrowth :=
  key_batch_hierarchy witnessSecret witnessSecret_injective

/-! ## C7 — new-password flow -/

/-- C7: when no configuration archive exists, the full password pair is
prompted repeatedly, skipping every pair until the first whose trimmed
entries are both non-empty and equal, and only then is the trimmed password
of that pair bound to the fresh empty document (with the admin hash of that
password stored); a stream with no such pair never leaves the loop. -/
theorem new_password_flow (w : World) (hne : w.configArchiveExists = false) :
    (∀ inputs : List (String × String),
        newPasswordLoop inputs =
          (inputs.find? pairAccepted).map (fun p => trimFilter p.1)) ∧
    (∀ pw : String, newPasswordLoop w.newPasswordInputs = some pw →
        (setupConfigArchive w).1 =
          SetupResult.proceed
            { data := { emptyDocument with adminhash := some (w.htpasswd pw) }
              validateErrors := none } pw) ∧
    (newPasswordLoop w.newPasswordInputs = none →
        (setupConfigArchive w).1 = SetupResult.stuck) := by
  refine ⟨?_, ?_, ?_⟩
  · intro inputs
    induction inputs with
    | nil => rfl
    | cons p rest ih =>
      cases hp : pairAccepted p with
      | true => simp [newPasswordLoop, hp, List.find?_cons_of_pos _ hp]
      | false =>
        rw [List.find?_cons_of_neg _ (by simp [hp])]
        simp [newPasswordLoop, hp, ih]
  · intro pw hpw
    unfold setupConfigArchive
    simp [hne, hpw]
  · intro hpw
    unfold setupConfigArchive
    simp [hne, hpw]

/-- A concrete world for the C7 witness: no archive on disk, three password
pair attempts where only the third is accepted. -/
def freshWorld : World :=
  { versionEnv := {}
    noWizard := false
    configArchiveExists := false
    newPasswordInputs := [(" abc123 ", "abc123x"), ("", ""), (" abc123 ", "abc123 ")]
    CFG_PASSWORD := none
    passwordPromptInputs := []
    deserialize := fun _ => DeserializeOutcome.err "boom"
    htpasswd := fun s => "hash:" ++ s
    wizard := id
    freshSecret := fun n => toString n
    certResult := Except.error ()
    configSerializeOk := true
    entryWriteOk := fun _ => true
    templates := []
    keyArchiveExists := false }

/-- C7 witness: the third pair is the first accepted one; its trimmed
password is bound to the fresh empty document. -/
theorem new_password_flow_witness :
    freshWorld.configArchiveExists = false ∧
    newPasswordLoop freshWorld.newPasswordInputs = some "abc123" ∧
    (setupConfigArchive freshWorld).1 =
      SetupResult.proceed
        { data := { emptyDocument with adminhash := some (freshWorld.htpasswd "abc123") }
          validateErrors := none } "abc123" :=
  ⟨rfl, by decide, (new_password_flow freshWorld rfl).2.1 "abc123" (by decide)⟩

/-! ## C2 — decryption failure -/

/-- A world with an existing configuration archive whose decryption throws
the given error (wrong password and corrupted archive both throw from the
same decryption step of the archive layer). -/
def decryptFailWorld (e : String) : World :=
  { freshWorld with
    configArchiveExists := true
    CFG_PASSWORD := some "somepassword"
    deserialize := fun _ => DeserializeOutcome.err e }

/-- C2: on an existing archive whose decryption throws — wrong password and
corrupted archive alike — the run logs the thrown error and terminates via
`process.exit()` with nothing written; but `process.exit()` carries no
argument, so the recorded exit status is 0, not the non-zero status the
claim requires.  Both causes produce the same terminal outcome and the same
empty set of writes. -/
theorem decrypt_failure_exits_with_status_zero :
    run (decryptFailWorld "wrong password") =
      (RunOutcome.exited 0, ["wrong password"], []) ∧
    run (decryptFailWorld "corrupted archive") =
      (RunOutcome.exited 0, ["corrupted archive"], []) ∧
    (run (decryptFailWorld "wrong password")).1 =
      (run (decryptFailWorld "corrupted archive")).1 ∧
    (run (decryptFailWorld "wrong password")).2.2 =
      (run (decryptFailWorld "corrupted archive")).2.2 :=
  ⟨rfl, rfl, rfl, rfl⟩

/-! ## C3 — unattended gate -/

/-- C3: when unattended mode is requested and the schema check finds at
least one missing required property, the run prints the rerun-interactively
instruction and terminates via `process.exit(1)`, and nothing is written: no
configuration archive update, no templates, no sentinel. -/
theorem unattended_missing_props_fatal (w : World) (cfg : Config) (pw : String)
    (logs : List String)
    (hsetup : setupConfigArchive w = (SetupResult.proceed cfg pw, logs))
    (hnw : w.noWizard = true)
    (hmiss : missingProps (cfg.validateErrors.getD []) ≠ []) :
    run w = (RunOutcome.exited 1, logs ++ [unattendedFailMsg], []) := by
  unfold run
  rw [hsetup]
  have hm : (missingProps (cfg.validateErrors.getD [])).isEmpty = false := by
    cases hcc : missingProps (cfg.validateErrors.getD []) with
    | nil => exact absurd hcc hmiss
    | cons a l => rfl
  simp [hnw, hm]

/-- A validation error reporting one missing required property. -/
def missingPropError : ValidateError :=
  { keyword := "required"
    params := some (some "bitcoin_rpcpassword") }

/-- The config the deserializer returns in the C3 witness world. -/
def unattendedCfg0 : Config :=
  { data := emptyDocument
    validateErrors := some [missingPropError] }

/-- The C3 witness world: archive present, env password, unattended mode,
deserialization reporting one missing required property. -/
def unattendedWorld : World :=
  { freshWorld with
    noWizard := true
    configArchiveExists := true
    CFG_PASSWORD := some "pw"
    deserialize := fun _ => DeserializeOutcome.ok unattendedCfg0 }

/-- The config produced by setup in the C3 witness world (admin hash of the
password in use stored). -/
def unattendedCfg : Config :=
  { data := { emptyDocument with adminhash := some (freshWorld.htpasswd "pw") }
    validateErrors := some [missingPropError] }

/-- C3 witness: the unattended gate fires on a concrete world and nothing is
written. -/
theorem unattended_missing_props_fatal_witness :
    setupConfigArchive unattendedWorld = (SetupResult.proceed unattendedCfg "pw", []) ∧
    unattendedWorld.noWizard = true ∧
    missingProps (unattendedCfg.validateErrors.getD []) ≠ [] ∧
    run unattendedWorld = (RunOutcome.exited 1, [unattendedFailMsg], []) :=
  ⟨rfl, rfl, by decide,
    unattended_missing_props_fatal unattendedWorld unattendedCfg "pw" [] rfl rfl (by decide)⟩

/-! ## C8 — client key archive deletion -/

/-- C8: when the client key archive is about to be written (key records
present in the final document), the existing archive file is deleted exactly
when the client-key credential of the final document differs from the
pre-wizard snapshot and the file exists; the deletion, when it happens, comes
right before the two entry writes of the new archive, and in either case both
entries are then written over whatever remains on disk. -/
theorem client_key_archive_deletion (snapshot : Option String)
    (keyArchiveExists configOk : Bool) (entryOk : String → Bool)
    (templates : List String) (d : Document) (ks : KeyStore)
    (hks : d.gatekeeper_keys = some ks) :
    ∃ pre : List WriteEvent,
      (writeFiles snapshot keyArchiveExists configOk entryOk templates d).2.2 =
        pre
          ++ (if snapshot ≠ d.gatekeeper_clientkeyspassword ∧ keyArchiveExists = true
              then [WriteEvent.deleteKeyArchive] else [])
          ++ [WriteEvent.writeKeyEntry "keys.txt" (entryOk "keys.txt"),
              WriteEvent.writeKeyEntry "cacert.pem" (entryOk "cacert.pem"),
              WriteEvent.writeSentinel "EXIT_STATUS=0"] ∧
      WriteEvent.deleteKeyArchive ∉ pre := by
  refine ⟨WriteEvent.writeConfigArchive configOk :: templates.map WriteEvent.writeTemplate,
    ?_, ?_⟩
  · unfold writeFiles
    have hk2 : (resolvePathProps d).gatekeeper_keys = some ks :=
      (resolvePathProps_keys d).trans hks
    have hc2 : (resolvePathProps d).gatekeeper_clientkeyspassword =
        d.gatekeeper_clientkeyspassword :=
      resolvePathProps_clientkeyspassword d
    by_cases hcred : snapshot = d.gatekeeper_clientkeyspassword <;>
      cases keyArchiveExists <;> simp [hk2, hc2, hcred]
  · simp

/-- A final document carrying key records and a changed client-key
credential. -/
def changedCredDoc : Document :=
  { gatekeeper_keys := some ⟨["e0"], ["c0"]⟩
    gatekeeper_clientkeyspassword := some "newpw" }

/-- C8 witness: with a differing credential and an existing archive file,
the deletion happens right before the entry writes. -/
theorem client_key_archive_deletion_witness :
    changedCredDoc.gatekeeper_keys = some (⟨["e0"], ["c0"]⟩ : KeyStore) ∧
    (∃ pre : List WriteEvent,
      (writeFiles (some "oldpw") true true (fun _ => true) [] changedCredDoc).2.2 =
        pre
          ++ (if (some "oldpw" : Option String) ≠ changedCredDoc.gatekeeper_clientkeyspassword
                ∧ (true : Bool) = true
              then [WriteEvent.deleteKeyArchive] else [])
          ++ [WriteEvent.writeKeyEntry "keys.txt" ((fun _ => true) "keys.txt"),
              WriteEvent.writeKeyEntry "cacert.pem" ((fun _ => true) "cacert.pem"),
              WriteEvent.writeSentinel "EXIT_STATUS=0"] ∧
      WriteEvent.deleteKeyArchive ∉ pre) :=
  ⟨rfl, client_key_archive_deletion (some "oldpw") true true (fun _ => true) []
    changedCredDoc ⟨["e0"], ["c0"]⟩ rfl⟩

end Cyphernodeconf
